import Mathlib

/-!
Shallow embedding of the manual-operations pipeline of the
autoreduce-scripts repository, covering:

* `autoreduce_scripts/manual_operations/util.py` (run-range expansion),
* `autoreduce_scripts/manual_operations/manual_submission.py`
  (metadata resolution, calibration correction, RB categorization,
  message submission, batch orchestration),
* `autoreduce_scripts/manual_operations/manual_batch_submit.py`
  (the multi-run single-message entry point).

External collaborators (Django ORM, the ICAT catalogue client, the
ActiveMQ queue client, the HDF5 container) are modelled as oracles
packaged in a `World` record; side effects that the claims talk about
(catalogue queries, log lines, queue publishes) are recorded in an
explicit event trace.  Python exceptions are modelled by the `PyError`
type and `Except` results.
-/

namespace AutoreduceScripts

/-- Python exception values that the embedded code can raise.  Only the
constructor and the message matter to the embedded control flow (the
source catches exceptions by class). -/
inductive PyError where
  | runtimeError (msg : String)
  | typeError (msg : String)
  | valueError (msg : String)
  deriving DecidableEq, Repr

/-- Modelled from the spec: the `RBCategory` enumeration imported from
`autoreduce_scripts/manual_operations/rb_categories.py`, a file that is
not present under src; its members are exactly the ones referenced by
`categorize_rb_number` (the member for xpress access is spelled
`XPESS_ACCESS` in the source). -/
inductive RBCategory where
  | DIRECT_ACCESS
  | RAPID_ACCESS
  | COMMISSIONING
  | CALIBRATION
  | INDUSTRIAL_ACCESS
  | INTERNATIONAL_PARTNERS
  | XPESS_ACCESS
  | UNCATEGORIZED
  deriving DecidableEq, Repr

/-- Rendering of an `RBCategory` member the way the Python logger
interpolates it with percent-s (the enum member repr). -/
def rbCategoryStr : RBCategory → String
  | .DIRECT_ACCESS => "RBCategory.DIRECT_ACCESS"
  | .RAPID_ACCESS => "RBCategory.RAPID_ACCESS"
  | .COMMISSIONING => "RBCategory.COMMISSIONING"
  | .CALIBRATION => "RBCategory.CALIBRATION"
  | .INDUSTRIAL_ACCESS => "RBCategory.INDUSTRIAL_ACCESS"
  | .INTERNATIONAL_PARTNERS => "RBCategory.INTERNATIONAL_PARTNERS"
  | .XPESS_ACCESS => "RBCategory.XPESS_ACCESS"
  | .UNCATEGORIZED => "RBCategory.UNCATEGORIZED"

/-- The view of a `ReductionRun` database record that
`get_run_data_from_database` extracts: the file path of the first
attached data location, the integer reference number of the owning
experiment, and the run title. -/
structure DbRecord where
  data_location : String
  reference_number : Int
  run_title : String
  deriving DecidableEq, Repr

/-- The view of an ICAT datafile entity that `get_run_data_from_icat`
extracts: `df.location`, `df.dataset.investigation.name` and
`df.investigation.title`. -/
structure Datafile where
  location : String
  dataset_investigation_name : String
  investigation_title : String
  deriving DecidableEq, Repr

/-- Oracles for every external collaborator touched by the pipeline.

* `db` is the Django query
  `ReductionRun.objects.filter(...).order_by(run_version).first()`
  together with the field accesses on the returned record; an `Except`
  error models the query itself raising.
* `icatConnectOk` tells whether `ICATClient().connect()` succeeds.
* `icatPrefix` is `get_icat_instrument_prefix` from autoreduce-utils.
* `icatQuery` is `icat_client.execute_query` keyed by the searched file
  name; `Option.none` is a catalogue miss.
* `queueConnectOk` tells whether `QueueClient().connect()` succeeds.
* `openFile` is the h5py container: `Option.none` means opening raises
  OSError; otherwise the file is the list of its top-level entries,
  each entry being the decodable experiment-identifier field if the
  extraction `entry.get(experiment_identifier)[:][0].decode(utf-8)`
  succeeds on it, and `Option.none` if that extraction raises.
* `getLocationAndRb` backs the spec-modelled resolver used by
  `manual_batch_submit.py` (see `get_location_and_rb` below). -/
structure World where
  db : String → Int → Except PyError (Option DbRecord)
  icatConnectOk : Bool
  icatPrefix : String → String
  icatQuery : String → Option Datafile
  queueConnectOk : Bool
  openFile : String → Option (List (Option String))
  getLocationAndRb : String → Int → Except PyError (Option String × Option String)

/-- The message record built by `submit_run` (the `Message` class of
autoreduce-utils, restricted to the fields this repository sets).  Its
dictionary serialization `to_dict` is modelled by the record itself,
which is exactly the mapping from field names to field values. -/
structure Message where
  rb_number : String
  instrument : String
  data : String
  run_number : Int
  run_title : Option String
  facility : String
  started_by : Int
  reduction_arguments : List (String × String)
  description : String
  deriving DecidableEq, Repr

/-- Observable side effects of the pipeline: database and catalogue
lookups, logger calls, and queue publishes. -/
inductive Event where
  | dbLookup (instrument : String) (run_number : Int)
  | icatQuery (file_name : String)
  | resolveBatch (instrument : String) (run_number : Int)
  | logInfo (msg : String)
  | logWarning (msg : String)
  | logError (msg : String)
  | send (destination : String) (priority : Nat) (message : Message)
  deriving DecidableEq, Repr

/-- Python str.zfill: left-pad with zero characters up to the requested
width, keeping a leading sign character in front of the padding. -/
def pyZfill (s : String) (width : Nat) : String :=
  if width ≤ s.length then s
  else
    match s.data with
    | c :: rest =>
        if c = '+' ∨ c = '-' then
          String.mk (c :: (List.replicate (width - s.length) ('0') ++ rest))
        else
          String.mk (List.replicate (width - s.length) ('0') ++ s.data)
    | [] => String.mk (List.replicate width ('0'))

/-- Python substring containment, the expression `needle in haystack`
on strings: contiguous-infix test on the character lists. -/
def pyIn (needle haystack : String) : Bool :=
  decide (List.IsInfix needle.data haystack.data)

/-- Python truthiness of an optional string: `None` and the empty
string are falsy, every other string is truthy. -/
def pyTruthy : Option String → Bool
  | Option.none => false
  | some s => decide (s ≠ "")

/-- Python str.upper restricted to ASCII, which is what every
instrument name at the facility uses. -/
def pyUpper (s : String) : String :=
  String.mk (s.data.map Char.toUpper)

/-- Fuel-driven worker for `pyReplace`: scans left to right and
replaces non-overlapping occurrences of `pat`, like Python
str.replace.  The fuel is the length of the scanned list, which bounds
the number of steps. -/
def pyReplaceAux (pat repl : List Char) : Nat → List Char → List Char
  | _, [] => []
  | 0, l => l
  | fuel + 1, c :: rest =>
      if pat ≠ [] ∧ pat.isPrefixOf (c :: rest) then
        repl ++ pyReplaceAux pat repl fuel ((c :: rest).drop pat.length)
      else
        c :: pyReplaceAux pat repl fuel rest

/-- Python str.replace on strings (for the non-empty patterns this
repository uses). -/
def pyReplace (s pat repl : String) : String :=
  String.mk (pyReplaceAux pat.data repl.data s.data.length s.data)

/-- Python range(a, b) as a list of integers. -/
def pyRangeList (a b : Int) : List Int :=
  (List.range (b - a).toNat).map (fun (k : Nat) => a + (k : Int))

/-- Embedding of `get_run_range` from
`autoreduce_scripts/manual_operations/util.py`: default the last run to
the first, reject a descending pair with ValueError, otherwise return
`range(first_run, last_run + 1)`. -/
def get_run_range (first_run : Int) (last_run : Option Int) : Except PyError (List Int) :=
  let last := last_run.getD first_run
  if first_run > last then
    Except.error (PyError.valueError
      ("first run: " ++ toString first_run ++ " is greater than last run: " ++ toString last))
  else
    Except.ok (pyRangeList first_run (last + 1))

/-- Embedding of `categorize_rb_number` from `manual_submission.py`:
reject any string whose length is not 7, then branch on the characters
at indices 2 and 3. -/
def categorize_rb_number (rb_num : String) : RBCategory :=
  if rb_num.length ≠ 7 then RBCategory.UNCATEGORIZED
  else
    let third_digit := rb_num.data.getD 2 ('!')
    let fourth_digit := rb_num.data.getD 3 ('!')
    if third_digit = '0' then RBCategory.DIRECT_ACCESS
    else if third_digit = '1' ∨ third_digit = '2' then RBCategory.RAPID_ACCESS
    else if third_digit = '3' ∧ fourth_digit = '0' then RBCategory.COMMISSIONING
    else if third_digit = '3' ∧ fourth_digit = '5' then RBCategory.CALIBRATION
    else if third_digit = '5' then RBCategory.INDUSTRIAL_ACCESS
    else if third_digit = '6' then RBCategory.INTERNATIONAL_PARTNERS
    else if third_digit = '9' then RBCategory.XPESS_ACCESS
    else RBCategory.UNCATEGORIZED

deriving instance DecidableEq for Except

/-- Embedding of the inner helper `windows_to_linux_path` of
`_read_rb_from_datafile`: rewrite the literal network prefix (the
characters backslash backslash i s i s backslash i n s t dollar
backslash) to the string slash i s i s slash, then turn every remaining
backslash into a forward slash. -/
def windows_to_linux_path (path : String) : String :=
  pyReplace (pyReplace path ("\\\\isis\\inst$\\") ("/isis/")) ("\\") ("/")

/-- Embedding of `submit_run` from `manual_submission.py`.  The queue
client is `Option Unit`: `Option.none` is an unconnected transport, for
which the source raises RuntimeError before doing anything else
observable.  Otherwise the source builds the message, sends it to the
DataReady queue at priority 1, and returns its dictionary form (the
`Message` record itself in this embedding). -/
def submit_run (active_mq_client : Option Unit) (rb_number : String) (instrument : String)
    (data_file_location : String) (run_number : Int) (run_title : Option String)
    (reduction_arguments : Option (List (String × String))) (user_id : Int)
    (description : String) : Except PyError Message × List Event :=
  let ra := reduction_arguments.getD []
  match active_mq_client with
  | Option.none =>
      (Except.error (PyError.runtimeError ("ActiveMQ not connected, cannot submit runs")), [])
  | some _ =>
      let message : Message :=
        { rb_number := rb_number
          instrument := instrument
          data := data_file_location
          run_number := run_number
          run_title := run_title
          facility := "ISIS"
          started_by := user_id
          reduction_arguments := ra
          description := description }
      (Except.ok message, [Event.send ("/queue/DataReady") 1 message])

/-- Embedding of `get_run_data_from_database`: run the ORM query; a
missing record yields a triple of Nones, a present record yields its
data location, the stringified experiment reference number, and the run
title.  The `dbLookup` event records that the database was consulted. -/
def get_run_data_from_database (w : World) (instrument : String) (run_number : Int) :
    Except PyError (Option String × Option String × Option String) × List Event :=
  match w.db instrument run_number with
  | Except.error e => (Except.error e, [Event.dbLookup instrument run_number])
  | Except.ok Option.none =>
      (Except.ok (Option.none, Option.none, Option.none), [Event.dbLookup instrument run_number])
  | Except.ok (some record) =>
      (Except.ok (some record.data_location, some (toString record.reference_number),
        some record.run_title), [Event.dbLookup instrument run_number])

/-- Embedding of `login_icat`: connect the ICAT client, converting a
connection failure into a RuntimeError. -/
def login_icat (w : World) : Except PyError Unit :=
  if w.icatConnectOk then Except.ok ()
  else Except.error (PyError.runtimeError ("Unable to proceed. Unable to connect to ICAT."))

/-- Embedding of `icat_datafile_query`: raise RuntimeError on a missing
client, otherwise run the catalogue search for the file name and record
the query in the trace. -/
def icat_datafile_query (w : World) (icat_client : Option Unit) (file_name : String) :
    Except PyError (Option Datafile) × List Event :=
  match icat_client with
  | Option.none => (Except.error (PyError.runtimeError ("ICAT not connected")), [])
  | some _ => (Except.ok (w.icatQuery file_name), [Event.icatQuery file_name])

/-- Embedding of `get_run_data_from_icat`: log in to ICAT, then try the
four candidate file names in the order of the source (facility prefix
with 5-digit padding, prefix with 8-digit padding, full instrument name
with 5-digit padding, full name with 8-digit padding), stopping at the
first hit; raise RuntimeError naming the last tried file when all four
miss. -/
def get_run_data_from_icat (w : World) (instrument : String) (run_number : Int)
    (file_ext : String) : Except PyError (String × String × String) × List Event :=
  match login_icat w with
  | Except.error e => (Except.error e, [])
  | Except.ok _ =>
      let icatInstrumentPrefix := w.icatPrefix instrument
      let file_name1 := icatInstrumentPrefix ++ pyZfill (toString run_number) 5 ++ "." ++ file_ext
      let q1 := icat_datafile_query w (some ()) file_name1
      match q1.1 with
      | Except.error e => (Except.error e, q1.2)
      | Except.ok (some datafile) =>
          (Except.ok (datafile.location, datafile.dataset_investigation_name,
            datafile.investigation_title), q1.2)
      | Except.ok Option.none =>
          let file_name2 :=
            icatInstrumentPrefix ++ pyZfill (toString run_number) 8 ++ "." ++ file_ext
          let q2 := icat_datafile_query w (some ()) file_name2
          match q2.1 with
          | Except.error e => (Except.error e, q1.2 ++ q2.2)
          | Except.ok (some datafile) =>
              (Except.ok (datafile.location, datafile.dataset_investigation_name,
                datafile.investigation_title), q1.2 ++ q2.2)
          | Except.ok Option.none =>
              let file_name3 := instrument ++ pyZfill (toString run_number) 5 ++ "." ++ file_ext
              let q3 := icat_datafile_query w (some ()) file_name3
              match q3.1 with
              | Except.error e => (Except.error e, q1.2 ++ q2.2 ++ q3.2)
              | Except.ok (some datafile) =>
                  (Except.ok (datafile.location, datafile.dataset_investigation_name,
                    datafile.investigation_title), q1.2 ++ q2.2 ++ q3.2)
              | Except.ok Option.none =>
                  let file_name4 :=
                    instrument ++ pyZfill (toString run_number) 8 ++ "." ++ file_ext
                  let q4 := icat_datafile_query w (some ()) file_name4
                  match q4.1 with
                  | Except.error e => (Except.error e, q1.2 ++ q2.2 ++ q3.2 ++ q4.2)
                  | Except.ok (some datafile) =>
                      (Except.ok (datafile.location, datafile.dataset_investigation_name,
                        datafile.investigation_title), q1.2 ++ q2.2 ++ q3.2 ++ q4.2)
                  | Except.ok Option.none =>
                      (Except.error (PyError.runtimeError
                        ("Cannot find datafile " ++ file_name4 ++ " in ICAT.")),
                        q1.2 ++ q2.2 ++ q3.2 ++ q4.2)

/-- Embedding of `_read_rb_from_datafile` (the leading underscore of
the Python name is dropped): normalize the path, open the container
(OSError becomes a RuntimeError naming the file), then run the loop
over the top-level entries.  The loop body either returns the extracted
field of the FIRST entry or raises, so later entries are never reached;
with no entries the final RuntimeError fires. -/
def read_rb_from_datafile (w : World) (location : String) : Except PyError String :=
  let loc := windows_to_linux_path location
  match w.openFile loc with
  | Option.none => Except.error (PyError.runtimeError ("Cannot open file " ++ loc))
  | some [] =>
      Except.error (PyError.runtimeError
        ("Datafile at " ++ loc ++ " does not have any items that can be iterated"))
  | some (entry :: _) =>
      match entry with
      | some value => Except.ok value
      | Option.none =>
          Except.error (PyError.runtimeError ("Could not read RB number from datafile"))

/-- Embedding of `overwrite_icat_calibration_rb_num`: keep the given RB
number unless it contains the substring CAL, in which case read the
true number from the datafile at the given location.  The str cast of
the source is the identity here because the catalogue always supplies
the RB number as a string. -/
def overwrite_icat_calibration_rb_num (w : World) (location : String) (rb_number : String) :
    Except PyError String :=
  if pyIn ("CAL") rb_number then read_rb_from_datafile w location
  else Except.ok rb_number

/-- Embedding of `get_run_data`: try the database; only a RuntimeError
raised by the database step triggers the catalogue fallback (followed
by the calibration correction), any other outcome of the database step
(including the miss triple of Nones) is returned as is.  The int cast
of the source is omitted because the run number is already an integer
on every embedded call path (the SystemExit branch concerns
non-numeric command-line strings). -/
def get_run_data (w : World) (instrument : String) (run_number : Int) (file_ext : String) :
    Except PyError (Option String × Option String × Option String) × List Event :=
  let dbres := get_run_data_from_database w instrument run_number
  match dbres.1 with
  | Except.ok t => (Except.ok t, dbres.2)
  | Except.error (PyError.runtimeError _) =>
      let icat := get_run_data_from_icat w instrument run_number file_ext
      match icat.1 with
      | Except.error e => (Except.error e, dbres.2 ++ icat.2)
      | Except.ok (location, rb_number, run_title) =>
          match overwrite_icat_calibration_rb_num w location rb_number with
          | Except.ok rb2 => (Except.ok (some location, some rb2, some run_title),
              dbres.2 ++ icat.2)
          | Except.error e => (Except.error e, dbres.2 ++ icat.2)
  | Except.error e => (Except.error e, dbres.2)

/-- Embedding of `login_queue`: connect the ActiveMQ client, converting
a connection failure into a RuntimeError. -/
def login_queue (w : World) : Except PyError Unit :=
  if w.queueConnectOk then Except.ok ()
  else Except.error (PyError.runtimeError
    ("Cannot connect to ActiveMQ with provided credentials in credentials.ini"))

/-- One iteration of the loop in `main` of `manual_submission.py` for a
single run: resolve the run data (NOT inside the try block), categorize
the RB number inside a try that catches only RuntimeError (a None RB
number makes len raise TypeError, which is not caught), then submit
when the location is truthy and the RB number is not None, otherwise
log an error.  The result is `some` message on submission, `none` when
the run is skipped by continue or by the falsy check. -/
def main_step (w : World) (instrument : String) (run : Int) :
    Except PyError (Option Message) × List Event :=
  let r := get_run_data w instrument run ("nxs")
  match r.1 with
  | Except.error e => (Except.error e, r.2)
  | Except.ok (location, rb_number, run_title) =>
      let catres : Except PyError RBCategory :=
        match rb_number with
        | Option.none => Except.error (PyError.typeError ("object of type NoneType has no len"))
        | some s => Except.ok (categorize_rb_number s)
      match catres with
      | Except.error (PyError.runtimeError _) =>
          (Except.ok Option.none, r.2 ++ [Event.logWarning
            ("Could not categorize the run due to an invalid RB number. It will be not be submitted.")])
      | Except.error e => (Except.error e, r.2)
      | Except.ok category =>
          let r2 := r.2 ++ [Event.logInfo ("Run is in category " ++ rbCategoryStr category)]
          if pyTruthy location ∧ rb_number ≠ Option.none then
            let sub := submit_run (some ()) (rb_number.getD ("")) instrument
              (location.getD ("")) run run_title Option.none (-1) ""
            match sub.1 with
            | Except.ok d => (Except.ok (some d), r2 ++ sub.2)
            | Except.error e => (Except.error e, r2 ++ sub.2)
          else
            (Except.ok Option.none, r2 ++ [Event.logError
              ("Unable to find RB number and location for " ++ instrument ++ toString run)])

/-- The loop of `main` over the expanded run numbers, accumulating the
dictionaries of the submitted messages; an uncaught exception from a
run aborts the remaining iterations, as in Python. -/
def main_loop (w : World) (instrument : String) :
    List Int → List Message → Except PyError (List Message) × List Event
  | [], acc => (Except.ok acc, [])
  | run :: rest, acc =>
      let step := main_step w instrument run
      match step.1 with
      | Except.error e => (Except.error e, step.2)
      | Except.ok Option.none =>
          let r := main_loop w instrument rest acc
          (r.1, step.2 ++ r.2)
      | Except.ok (some d) =>
          let r := main_loop w instrument rest (acc ++ [d])
          (r.1, step.2 ++ r.2)

/-- Embedding of `main` from `manual_submission.py`: expand the run
range, uppercase the instrument, log in to the queue, then process each
run in order, returning the list of submitted message dictionaries. -/
def main (w : World) (instrument : String) (first_run : Int) (last_run : Option Int) :
    Except PyError (List Message) × List Event :=
  match get_run_range first_run last_run with
  | Except.error e => (Except.error e, [])
  | Except.ok run_numbers =>
      let instr := pyUpper instrument
      match login_queue w with
      | Except.error e => (Except.error e, [])
      | Except.ok _ => main_loop w instr run_numbers []

/-- Modelled from the spec: `get_location_and_rb`, imported by
`manual_batch_submit.py` from `manual_submission.py`, is defined in no
file under src.  Per sections 4.4 and 6 of the spec it is the metadata
resolver returning the data location and the experiment id for one
(instrument, run) pair; it is modelled as a `World` oracle call whose
lookup is recorded in the trace. -/
def get_location_and_rb (w : World) (instrument : String) (run : Int) (file_ext : String) :
    Except PyError (Option String × Option String) × List Event :=
  let _ := file_ext
  (w.getLocationAndRb instrument run, [Event.resolveBatch instrument run])

/-- The loop of the batch entry point: resolve every run in order with
`get_location_and_rb`, collecting locations and RB numbers; an error
aborts the loop. -/
def batch_loop (w : World) (instrument : String) :
    List Int → List (Option String) → List (Option String) →
    Except PyError (List (Option String) × List (Option String)) × List Event
  | [], locations, rb_numbers => (Except.ok (locations, rb_numbers), [])
  | run :: rest, locations, rb_numbers =>
      let step := get_location_and_rb w instrument run ("nxs")
      match step.1 with
      | Except.error e => (Except.error e, step.2)
      | Except.ok (location, rb_num) =>
          let r := batch_loop w instrument rest (locations ++ [location]) (rb_numbers ++ [rb_num])
          (r.1, step.2 ++ r.2)

/-- Embedding of `main` from `manual_batch_submit.py`: log the intent,
uppercase the instrument, log in to the queue, resolve every run, and
then call `submit_run` with five positional arguments.  The source call
`submit_run(activemq_client, rb_numbers, instrument, locations, runs)`
omits the required positional parameter `run_title` of `submit_run`, so
Python raises TypeError at the call after all the lookups have been
performed; the embedding returns that TypeError. -/
def batch_main (w : World) (instrument : String) (runs : List Int) :
    Except PyError Unit × List Event :=
  let intro := [Event.logInfo ("Submitting runs for instrument " ++ instrument)]
  let instr := pyUpper instrument
  match login_queue w with
  | Except.error e => (Except.error e, intro)
  | Except.ok _ =>
      let r := batch_loop w instr runs [] []
      match r.1 with
      | Except.error e => (Except.error e, intro ++ r.2)
      | Except.ok _ =>
          (Except.error (PyError.typeError
            ("submit_run missing 1 required positional argument: run_title")),
            intro ++ r.2)

/-- Specification-side classifier, written from the words of the claim
for comparison with `categorize_rb_number`: every string whose length
is not 7 is uncategorized regardless of content, and a 7-character
string is categorized only by its characters at indices 2 and 3
according to the published decision table. -/
def classify_spec (experiment_id : String) : RBCategory :=
  match experiment_id.data with
  | [_, _, c2, c3, _, _, _] =>
      if c2 = '0' then RBCategory.DIRECT_ACCESS
      else if c2 = '1' ∨ c2 = '2' then RBCategory.RAPID_ACCESS
      else if c2 = '3' ∧ c3 = '0' then RBCategory.COMMISSIONING
      else if c2 = '3' ∧ c3 = '5' then RBCategory.CALIBRATION
      else if c2 = '5' then RBCategory.INDUSTRIAL_ACCESS
      else if c2 = '6' then RBCategory.INTERNATIONAL_PARTNERS
      else if c2 = '9' then RBCategory.XPESS_ACCESS
      else RBCategory.UNCATEGORIZED
  | _ => RBCategory.UNCATEGORIZED

/-- Predicate on trace events for the uppercase-instrument claim:
metadata lookups must be keyed by the given instrument name and
published messages must carry it; all other events are unconstrained. -/
def lookupOrSendUsesInstr (instr : String) : Event → Prop
  | Event.dbLookup i _ => i = instr
  | Event.resolveBatch i _ => i = instr
  | Event.send _ _ m => m.instrument = instr
  | _ => True

/-- Baseline world in which every collaborator is reachable but empty:
the database has no records, the catalogue has no datafiles, no file on
disk opens, and the batch resolver finds nothing. -/
def baseWorld : World where
  db := fun _ _ => Except.ok Option.none
  icatConnectOk := true
  icatPrefix := fun _ => "MAR"
  icatQuery := fun _ => Option.none
  queueConnectOk := true
  openFile := fun _ => Option.none
  getLocationAndRb := fun _ _ => Except.ok (Option.none, Option.none)

/-- World whose database holds a record for every run: location
/archive/file.nxs, experiment reference 1234567, title titleA. -/
def dbHitWorld : World :=
  { baseWorld with
    db := fun _ _ => Except.ok (some
      { data_location := "/archive/file.nxs"
        reference_number := 1234567
        run_title := "titleA" }) }

/-- World for the batch-abort scenario: run 1 has a database record,
any other run makes the database query raise RuntimeError and the
catalogue (reachable, but holding no datafiles) exhausts its four
candidate names. -/
def c2World : World :=
  { baseWorld with
    db := fun _ r =>
      if r = 1 then
        Except.ok (some
          { data_location := "/archive/run1.nxs"
            reference_number := 1234567
            run_title := "first run" })
      else Except.error (PyError.runtimeError ("database query failed")) }

/-- World whose database record carries an empty data location together
with a perfectly good experiment reference. -/
def c6World : World :=
  { baseWorld with
    db := fun _ _ => Except.ok (some
      { data_location := ""
        reference_number := 1234567
        run_title := "t" }) }

/-- World whose datafile at /data/file.nxs has two top-level entries:
the first lacks a readable experiment identifier, the second holds
1234567. -/
def c9World : World :=
  { baseWorld with
    openFile := fun p =>
      if p = "/data/file.nxs" then some [Option.none, some ("1234567")] else Option.none }

/-- World for the calibration-correction scenario: the database raises,
ICAT resolves MAR00123.nxs to a datafile whose investigation name
carries the CAL marker, and the datafile at the resolved location holds
the true experiment identifier 1234567. -/
def calWorld : World :=
  { baseWorld with
    db := fun _ _ => Except.error (PyError.runtimeError ("database query failed"))
    icatQuery := fun f =>
      if f = "MAR00123.nxs" then
        some
          { location := "/isis/cal.nxs"
            dataset_investigation_name := "CAL_2020"
            investigation_title := "calibration investigation" }
      else Option.none
    openFile := fun p =>
      if p = "/isis/cal.nxs" then some [some ("1234567")] else Option.none }

/-- Helper: the code point of a character built from a scalar value below
the surrogate range is that value. -/
theorem char_ofNat_toNat (n : Nat) (h : n < 55296) : (Char.ofNat n).toNat = n := by
  have hv : n.isValidChar := Or.inl h
  simp [Char.ofNat, Char.toNat, hv]
  rfl

/-- Helper: ASCII uppercasing of a character is idempotent. -/
theorem char_toUpper_idem (c : Char) : c.toUpper.toUpper = c.toUpper := by
  by_cases h : c.toNat ≥ 97 ∧ c.toNat ≤ 122
  · have e1 : c.toUpper = Char.ofNat (c.toNat - 32) := by
      unfold Char.toUpper
      exact if_pos h
    have h2 : (Char.ofNat (c.toNat - 32)).toNat = c.toNat - 32 :=
      char_ofNat_toNat _ (by omega)
    rw [e1]
    unfold Char.toUpper
    rw [if_neg]
    rw [h2]
    omega
  · have e1 : c.toUpper = c := by
      unfold Char.toUpper
      exact if_neg h
    rw [e1, e1]

/-- Helper: `pyUpper` is idempotent, so uppercasing an already-uppercased
instrument name changes nothing. -/
theorem pyUpper_idem (s : String) : pyUpper (pyUpper s) = pyUpper s := by
  unfold pyUpper
  simp [List.map_map, Function.comp_def, char_toUpper_idem]

/-- Claim C5: `categorize_rb_number` is a total pure function on strings; it
agrees everywhere with the specification decision table `classify_spec`,
so every string of length other than 7 is uncategorized and a
7-character string is classified only by its characters at indices 2 and
3 (totality is immediate from the Lean type, which has no error
outcome). -/
theorem categorize_rb_number_matches_table (s : String) :
    categorize_rb_number s = classify_spec s := by
  obtain ⟨l⟩ := s
  rcases l with _ | ⟨a, l⟩
  · simp [categorize_rb_number, classify_spec, String.length]
  rcases l with _ | ⟨b, l⟩
  · simp [categorize_rb_number, classify_spec, String.length]
  rcases l with _ | ⟨c, l⟩
  · simp [categorize_rb_number, classify_spec, String.length]
  rcases l with _ | ⟨d, l⟩
  · simp [categorize_rb_number, classify_spec, String.length]
  rcases l with _ | ⟨e, l⟩
  · simp [categorize_rb_number, classify_spec, String.length]
  rcases l with _ | ⟨f, l⟩
  · simp [categorize_rb_number, classify_spec, String.length]
  rcases l with _ | ⟨g, l⟩
  · simp [categorize_rb_number, classify_spec, String.length]
  rcases l with _ | ⟨i, l⟩
  · simp [categorize_rb_number, classify_spec, String.length, List.getD]
  · simp [categorize_rb_number, classify_spec, String.length]

/-- Claim C8: for first at most last the expansion succeeds with exactly
last - first + 1 values ascending from first (the k-th value is first +
k, so the last one is last); a missing last run yields the singleton of
the first; and a descending pair fails with the ValueError that the spec
calls InvalidRangeError. -/
theorem get_run_range_expand :
    (∀ first last : Int, first ≤ last → ∃ l, get_run_range first (some last) = Except.ok l ∧
        l.length = (last - first + 1).toNat ∧
        ∀ k (hk : k < l.length), l.get ⟨k, hk⟩ = first + k)
    ∧ (∀ first : Int, get_run_range first Option.none = Except.ok [first])
    ∧ (∀ first last : Int, first > last →
        get_run_range first (some last) = Except.error (PyError.valueError
          ("first run: " ++ toString first ++ " is greater than last run: " ++
            toString last))) := by
  refine ⟨?_, ?_, ?_⟩
  · intro first last h
    refine ⟨pyRangeList first (last + 1), ?_, ?_, ?_⟩
    · simp only [get_run_range, Option.getD]
      rw [if_neg (by omega)]
    · unfold pyRangeList
      rw [List.length_map, List.length_range]
      omega
    · intro k hk
      unfold pyRangeList
      rw [List.get_eq_getElem, List.getElem_map, List.getElem_range]
  · intro first
    simp only [get_run_range, Option.getD]
    rw [if_neg (by omega)]
    unfold pyRangeList
    have h2 : (first + 1 - first).toNat = 1 := by omega
    rw [h2]
    have h3 : List.range 1 = [0] := by decide
    rw [h3]
    simp
  · intro first last h
    simp only [get_run_range, Option.getD]
    rw [if_pos h]

/-- Claim C8 witness: the expansion theorem at (3, 5), at (4, None) and
at the descending pair (5, 3). -/
theorem get_run_range_expand_witness :
    (∃ l, get_run_range 3 (some 5) = Except.ok l ∧ l.length = ((5 : Int) - 3 + 1).toNat ∧
        ∀ k (hk : k < l.length), l.get ⟨k, hk⟩ = 3 + k)
    ∧ get_run_range 4 Option.none = Except.ok [4]
    ∧ get_run_range 5 (some 3) = Except.error (PyError.valueError
        ("first run: 5 is greater than last run: 3")) :=
  ⟨get_run_range_expand.1 3 5 (by decide), get_run_range_expand.2.1 4,
    get_run_range_expand.2.2 5 3 (by decide)⟩

/-- Claim C7: `submit_run` fails with the RuntimeError that the spec calls
TransportNotConnectedError exactly when the transport client is None,
publishing nothing; with a connected client it performs exactly one
publish, to the fixed destination /queue/DataReady at priority 1, of a
message whose facility is the literal ISIS and whose rb_number,
instrument, data, run_number, run_title, started_by, reduction_arguments
and description fields come from its arguments, and it returns the
dictionary form of that message. -/
theorem submit_run_publish (client : Option Unit) (rb instr data_loc : String) (run : Int)
    (title : Option String) (ra : Option (List (String × String))) (uid : Int) (desc : String) :
    (client = Option.none →
      submit_run client rb instr data_loc run title ra uid desc =
        (Except.error (PyError.runtimeError ("ActiveMQ not connected, cannot submit runs")), []))
    ∧ (∀ c, client = some c →
        submit_run client rb instr data_loc run title ra uid desc =
          (Except.ok
            { rb_number := rb, instrument := instr, data := data_loc, run_number := run,
              run_title := title, facility := "ISIS", started_by := uid,
              reduction_arguments := ra.getD [], description := desc },
            [Event.send ("/queue/DataReady") 1
              { rb_number := rb, instrument := instr, data := data_loc, run_number := run,
                run_title := title, facility := "ISIS", started_by := uid,
                reduction_arguments := ra.getD [], description := desc }])) := by
  constructor
  · intro hc
    subst hc
    simp [submit_run]
  · intro c hc
    subst hc
    simp [submit_run]

/-- Claim C7 witness: both branches of the publish theorem at concrete
arguments. -/
theorem submit_run_publish_witness :
    (submit_run Option.none ("1234567") ("MARI") ("/a.nxs") 5 (some ("t")) Option.none (-1) "" =
      (Except.error (PyError.runtimeError ("ActiveMQ not connected, cannot submit runs")), []))
    ∧ (submit_run (some ()) ("1234567") ("MARI") ("/a.nxs") 5 (some ("t")) Option.none (-1) "" =
      (Except.ok
        { rb_number := "1234567", instrument := "MARI", data := "/a.nxs", run_number := 5,
          run_title := some ("t"), facility := "ISIS", started_by := -1,
          reduction_arguments := [], description := "" },
        [Event.send ("/queue/DataReady") 1
          { rb_number := "1234567", instrument := "MARI", data := "/a.nxs", run_number := 5,
            run_title := some ("t"), facility := "ISIS", started_by := -1,
            reduction_arguments := [], description := "" }])) :=
  ⟨(submit_run_publish Option.none ("1234567") ("MARI") ("/a.nxs") 5 (some ("t"))
      Option.none (-1) "").1 rfl,
    (submit_run_publish (some ()) ("1234567") ("MARI") ("/a.nxs") 5 (some ("t"))
      Option.none (-1) "").2 () rfl⟩

/-- Claim C4: given a connected catalogue, the lookup tries the four
candidate file names in exactly the stated order — facility prefix with
5-digit zero padding, prefix with 8-digit padding, full instrument name
with 5-digit padding, full name with 8-digit padding — stopping at the
first hit (the trace is exactly the queries up to and including the
hit), and when all four miss it fails with the RuntimeError that the
spec calls DatafileNotFoundError, producing no metadata. -/
theorem get_run_data_from_icat_candidates (w : World) (instrument : String)
    (run_number : Int) (file_ext : String) (h : w.icatConnectOk = true) :
    let f1 := w.icatPrefix instrument ++ pyZfill (toString run_number) 5 ++ "." ++ file_ext
    let f2 := w.icatPrefix instrument ++ pyZfill (toString run_number) 8 ++ "." ++ file_ext
    let f3 := instrument ++ pyZfill (toString run_number) 5 ++ "." ++ file_ext
    let f4 := instrument ++ pyZfill (toString run_number) 8 ++ "." ++ file_ext
    (∀ df, w.icatQuery f1 = some df →
        get_run_data_from_icat w instrument run_number file_ext =
          (Except.ok (df.location, df.dataset_investigation_name, df.investigation_title),
            [Event.icatQuery f1]))
    ∧ (w.icatQuery f1 = Option.none → ∀ df, w.icatQuery f2 = some df →
        get_run_data_from_icat w instrument run_number file_ext =
          (Except.ok (df.location, df.dataset_investigation_name, df.investigation_title),
            [Event.icatQuery f1, Event.icatQuery f2]))
    ∧ (w.icatQuery f1 = Option.none → w.icatQuery f2 = Option.none →
        ∀ df, w.icatQuery f3 = some df →
        get_run_data_from_icat w instrument run_number file_ext =
          (Except.ok (df.location, df.dataset_investigation_name, df.investigation_title),
            [Event.icatQuery f1, Event.icatQuery f2, Event.icatQuery f3]))
    ∧ (w.icatQuery f1 = Option.none → w.icatQuery f2 = Option.none →
        w.icatQuery f3 = Option.none → ∀ df, w.icatQuery f4 = some df →
        get_run_data_from_icat w instrument run_number file_ext =
          (Except.ok (df.location, df.dataset_investigation_name, df.investigation_title),
            [Event.icatQuery f1, Event.icatQuery f2, Event.icatQuery f3, Event.icatQuery f4]))
    ∧ (w.icatQuery f1 = Option.none → w.icatQuery f2 = Option.none →
        w.icatQuery f3 = Option.none → w.icatQuery f4 = Option.none →
        get_run_data_from_icat w instrument run_number file_ext =
          (Except.error (PyError.runtimeError ("Cannot find datafile " ++ f4 ++ " in ICAT.")),
            [Event.icatQuery f1, Event.icatQuery f2, Event.icatQuery f3,
              Event.icatQuery f4])) := by
  refine ⟨?_, ?_, ?_, ?_, ?_⟩
  · intro df h1
    simp [get_run_data_from_icat, icat_datafile_query, login_icat, h, h1]
  · intro h1 df h2
    simp [get_run_data_from_icat, icat_datafile_query, login_icat, h, h1, h2]
  · intro h1 h2 df h3
    simp [get_run_data_from_icat, icat_datafile_query, login_icat, h, h1, h2, h3]
  · intro h1 h2 h3 df h4
    simp [get_run_data_from_icat, icat_datafile_query, login_icat, h, h1, h2, h3, h4]
  · intro h1 h2 h3 h4
    simp [get_run_data_from_icat, icat_datafile_query, login_icat, h, h1, h2, h3, h4]

/-- Claim C4 witness: with the first candidate name hitting, the lookup
performs exactly one catalogue query and returns that datafile. -/
theorem get_run_data_from_icat_candidates_witness :
    get_run_data_from_icat calWorld ("MARI") 123 ("nxs") =
      (Except.ok ("/isis/cal.nxs", "CAL_2020", "calibration investigation"),
        [Event.icatQuery ("MAR00123.nxs")]) :=
  (get_run_data_from_icat_candidates calWorld ("MARI") 123 ("nxs") (by decide)).1
    { location := "/isis/cal.nxs", dataset_investigation_name := "CAL_2020",
      investigation_title := "calibration investigation" } (by decide)

/-- Claim C3: on the catalogue fallback path, when the catalogue-supplied
experiment identifier contains the marker CAL the resolved identifier is
the one read from the run datafile at the resolved location, and when it
does not contain CAL the catalogue identifier is returned unchanged. -/
theorem get_run_data_calibration (w : World) (instrument : String) (run_number : Int)
    (file_ext : String) (m : String) (loc rb title : String) (tr : List Event)
    (hdb : w.db instrument run_number = Except.error (PyError.runtimeError m))
    (hicat : get_run_data_from_icat w instrument run_number file_ext =
      (Except.ok (loc, rb, title), tr)) :
    (∀ rb_true, pyIn ("CAL") rb = true → read_rb_from_datafile w loc = Except.ok rb_true →
        (get_run_data w instrument run_number file_ext).1 =
          Except.ok (some loc, some rb_true, some title))
    ∧ (pyIn ("CAL") rb = false →
        (get_run_data w instrument run_number file_ext).1 =
          Except.ok (some loc, some rb, some title)) := by
  constructor
  · intro rb_true hcal hread
    simp [get_run_data, get_run_data_from_database, hdb, hicat,
      overwrite_icat_calibration_rb_num, hcal, hread]
  · intro hcal
    simp [get_run_data, get_run_data_from_database, hdb, hicat,
      overwrite_icat_calibration_rb_num, hcal]

/-- Claim C3 witness: in a world where the database raises and the
catalogue returns the CAL-marked identifier CAL_2020, the resolved
identifier is the one read from the datafile. -/
theorem get_run_data_calibration_witness :
    (get_run_data calWorld ("MARI") 123 ("nxs")).1 =
      Except.ok (some ("/isis/cal.nxs"), some ("1234567"), some ("calibration investigation")) :=
  (get_run_data_calibration calWorld ("MARI") 123 ("nxs") ("database query failed")
    ("/isis/cal.nxs") ("CAL_2020") ("calibration investigation")
    [Event.icatQuery ("MAR00123.nxs")] (by decide) (by decide)).1
    ("1234567") (by decide) (by decide)

/-- Claim C9 (amended): the reader normalizes the path (prefix rewrite plus
backslash conversion, demonstrated on a concrete path in the last
conjunct), fails with the RuntimeError that the spec calls FileOpenError
when the container cannot be opened, fails with the FieldReadError kind
when the container has zero entries, returns the decoded field of the
FIRST entry when present there, and fails with the FieldReadError kind
when the first entry lacks the field, whatever the remaining entries
contain. -/
theorem read_rb_first_entry_only (w : World) (location : String) :
    (w.openFile (windows_to_linux_path location) = Option.none →
      read_rb_from_datafile w location = Except.error (PyError.runtimeError
        ("Cannot open file " ++ windows_to_linux_path location)))
    ∧ (w.openFile (windows_to_linux_path location) = some [] →
      read_rb_from_datafile w location = Except.error (PyError.runtimeError
        ("Datafile at " ++ windows_to_linux_path location ++
          " does not have any items that can be iterated")))
    ∧ (∀ v rest, w.openFile (windows_to_linux_path location) = some (some v :: rest) →
        read_rb_from_datafile w location = Except.ok v)
    ∧ (∀ rest, w.openFile (windows_to_linux_path location) = some (Option.none :: rest) →
        read_rb_from_datafile w location = Except.error (PyError.runtimeError
          ("Could not read RB number from datafile")))
    ∧ windows_to_linux_path ("\\\\isis\\inst$\\cycle_20_1\\MAR123.nxs") =
        "/isis/cycle_20_1/MAR123.nxs" := by
  refine ⟨?_, ?_, ?_, ?_, by decide⟩
  · intro h1
    simp [read_rb_from_datafile, h1]
  · intro h1
    simp [read_rb_from_datafile, h1]
  · intro v rest h1
    simp [read_rb_from_datafile, h1]
  · intro rest h1
    simp [read_rb_from_datafile, h1]

/-- Claim C9 counterexample: a container whose first entry lacks the
field while its second entry holds 1234567 makes the reader raise, even
though a later entry yields the field — refuting the first-entry-where-
present reading of the claim. -/
theorem read_rb_later_entry_counterexample :
    (read_rb_from_datafile c9World ("/data/file.nxs") =
      Except.error (PyError.runtimeError ("Could not read RB number from datafile")))
    ∧ ((c9World.openFile ("/data/file.nxs")).getD []).findSome? (fun x => x) =
        some ("1234567") := by
  decide

/-- Claim C9 witness: the amended reader theorem applied to a container
whose first entry holds the field. -/
theorem read_rb_first_entry_only_witness :
    read_rb_from_datafile calWorld ("/isis/cal.nxs") = Except.ok ("1234567") :=
  (read_rb_first_entry_only calWorld ("/isis/cal.nxs")).2.2.1 ("1234567") [] (by decide)

/-- Claim C1 (status code_bug): at the concrete failing input, the
database-hit path returns the record fields without any catalogue
query, and the database-miss path ALSO returns without any catalogue
query, yielding the triple of Nones instead of consulting ICAT — the
trace of both runs is exactly the single database lookup. -/
theorem get_run_data_db_miss_skips_icat :
    (get_run_data dbHitWorld ("GEM") 123 ("nxs") =
      (Except.ok (some ("/archive/file.nxs"), some ("1234567"), some ("titleA")),
        [Event.dbLookup ("GEM") 123]))
    ∧ (get_run_data baseWorld ("GEM") 123 ("nxs") =
      (Except.ok (Option.none, Option.none, Option.none),
        [Event.dbLookup ("GEM") 123])) := by
  decide

/-- Helper: a run whose resolution yields a non-empty location and a present
RB number is submitted with the expected message. -/
theorem main_step_submits (w : World) (instr : String) (run : Int) (lv s : String)
    (title : Option String)
    (h : (get_run_data w instr run ("nxs")).1 = Except.ok (some lv, some s, title))
    (hlv : lv ≠ "") :
    (main_step w instr run).1 = Except.ok (some
      { rb_number := s, instrument := instr, data := lv, run_number := run,
        run_title := title, facility := "ISIS", started_by := -1,
        reduction_arguments := [], description := "" }) := by
  rw [main_step]
  simp [h, pyTruthy, hlv, submit_run]

/-- Helper: an exception from resolution propagates unchanged out of the
per-run step, whose trace is then exactly the resolution trace. -/
theorem main_step_error (w : World) (instr : String) (run : Int) (e : PyError)
    (h : (get_run_data w instr run ("nxs")).1 = Except.error e) :
    (main_step w instr run).1 = Except.error e ∧
    (main_step w instr run).2 = (get_run_data w instr run ("nxs")).2 := by
  unfold main_step
  simp [h]

/-- Claim C2 counterexample: in a 2-run batch where run 1 resolves and
submits successfully and run 2 fails resolution (database raises, all
four catalogue candidates miss), the batch call raises the resolution
error instead of returning a 1-element result. -/
theorem main_batch_abort_counterexample :
    ((main c2World ("TEST") 1 (some 2)).1 =
      Except.error (PyError.runtimeError ("Cannot find datafile TEST00000002.nxs in ICAT.")))
    ∧ ((main_step c2World ("TEST") 1).1 =
      Except.ok (some
        { rb_number := "1234567", instrument := "TEST", data := "/archive/run1.nxs",
          run_number := 1, run_title := some ("first run"), facility := "ISIS",
          started_by := -1, reduction_arguments := [], description := "" })) := by
  decide

/-- Claim C2 (amended): resolution failures are NOT caught at the
orchestrator boundary — in a batch of two runs where run 1 resolves and
submits successfully and run 2 raises during resolution, the batch call
raises run 2s error instead of returning the 1-element result (the only
per-run handler covers RuntimeError from categorization). -/
theorem main_aborts_on_resolution_failure (w : World) (i : String) (first : Int)
    (e : PyError) (lv s : String) (title : Option String)
    (h1 : (get_run_data w (pyUpper i) first ("nxs")).1 = Except.ok (some lv, some s, title))
    (hlv : lv ≠ "")
    (h2 : (get_run_data w (pyUpper i) (first + 1) ("nxs")).1 = Except.error e)
    (hq : w.queueConnectOk = true) :
    (main w i first (some (first + 1))).1 = Except.error e := by
  have hrange : get_run_range first (some (first + 1)) = Except.ok [first, first + 1] := by
    unfold get_run_range
    simp only [Option.getD_some]
    rw [if_neg (by omega)]
    unfold pyRangeList
    have h3 : (first + 1 + 1 - first).toNat = 2 := by omega
    rw [h3]
    have h4 : List.range 2 = [0, 1] := by decide
    rw [h4]
    simp
  have hstep1 := main_step_submits w (pyUpper i) first lv s title h1 hlv
  have hstep2 := (main_step_error w (pyUpper i) (first + 1) e h2).1
  rw [main]
  simp only [hrange, login_queue, hq, if_true]
  simp only [main_loop, hstep1, hstep2]

/-- Claim C2 witness: the amended theorem applied at the concrete
2-run batch of the counterexample world. -/
theorem main_aborts_on_resolution_failure_witness :
    (main c2World ("TEST") 1 (some (1 + 1))).1 =
      Except.error (PyError.runtimeError
        ("Cannot find datafile TEST00000002.nxs in ICAT.")) :=
  main_aborts_on_resolution_failure c2World ("TEST") 1
    (PyError.runtimeError ("Cannot find datafile TEST00000002.nxs in ICAT."))
    ("/archive/run1.nxs") ("1234567") (some ("first run"))
    (by decide) (by decide) (by decide) (by decide)

/-- Claim C6 (amended): given a run whose resolution succeeded, a message is
published if and only if the resolved location is truthy (non-null AND
non-empty) and the RB number is not None; a None RB number aborts the
step with an uncaught TypeError from categorization rather than a logged
skip; a falsy location with a present RB number yields no submission, a
logged error, and a normal continue outcome. -/
theorem main_step_submission_guard (w : World) (instr : String) (run : Int)
    (loc rb title : Option String)
    (h : (get_run_data w instr run ("nxs")).1 = Except.ok (loc, rb, title)) :
    ((∃ msg, (main_step w instr run).1 = Except.ok (some msg)) ↔
      (pyTruthy loc = true ∧ rb ≠ Option.none))
    ∧ (rb = Option.none → (main_step w instr run).1 =
        Except.error (PyError.typeError ("object of type NoneType has no len")))
    ∧ (pyTruthy loc = false → rb ≠ Option.none →
        (main_step w instr run).1 = Except.ok Option.none ∧
        Event.logError ("Unable to find RB number and location for " ++ instr ++ toString run)
          ∈ (main_step w instr run).2) := by
  rcases rb with _ | s
  · refine ⟨?_, ?_, ?_⟩
    · constructor
      · intro ⟨msg, hmsg⟩
        rw [main_step] at hmsg
        simp [h] at hmsg
      · intro ⟨_, hrb⟩
        exact absurd rfl hrb
    · intro _
      rw [main_step]
      simp [h]
    · intro _ hrb
      exact absurd rfl hrb
  · by_cases hloc : pyTruthy loc = true
    · obtain ⟨lv, hlv⟩ : ∃ lv, loc = some lv := by
        rcases loc with _ | lv
        · simp [pyTruthy] at hloc
        · exact ⟨lv, rfl⟩
      subst hlv
      refine ⟨?_, ?_, ?_⟩
      · constructor
        · intro _
          exact ⟨hloc, by simp⟩
        · intro _
          refine ⟨{ rb_number := s, instrument := instr, data := lv,
                    run_number := run, run_title := title, facility := "ISIS",
                    started_by := -1, reduction_arguments := [], description := "" }, ?_⟩
          rw [main_step]
          simp [h, hloc, submit_run]
      · intro hnone
        cases hnone
      · intro hfalse _
        rw [hloc] at hfalse
        cases hfalse
    · rw [Bool.not_eq_true] at hloc
      refine ⟨?_, ?_, ?_⟩
      · constructor
        · intro ⟨msg, hmsg⟩
          rw [main_step] at hmsg
          simp [h, hloc] at hmsg
        · intro ⟨htrue, _⟩
          rw [hloc] at htrue
          cases htrue
      · intro hnone
        cases hnone
      · intro _ _
        rw [main_step]
        constructor
        · simp [h, hloc]
        · simp [h, hloc]

/-- Claim C6 counterexample: a database record with an empty (non-null)
data location and a valid experiment reference yields no published
message — the run is skipped with a logged error although both resolved
fields are non-null, refuting the claimed iff. -/
theorem main_empty_location_counterexample :
    ((get_run_data c6World ("TEST") 7 ("nxs")).1 =
      Except.ok (some (""), some ("1234567"), some ("t")))
    ∧ ((main c6World ("TEST") 7 Option.none).1 = Except.ok [])
    ∧ Event.logError ("Unable to find RB number and location for TEST7")
        ∈ (main c6World ("TEST") 7 Option.none).2 := by
  decide

/-- Claim C6 witness: the amended guard applied at the empty-location
world. -/
theorem main_step_submission_guard_witness :
    (main_step c6World ("TEST") 7).1 = Except.ok Option.none ∧
    Event.logError ("Unable to find RB number and location for TEST7")
      ∈ (main_step c6World ("TEST") 7).2 :=
  (main_step_submission_guard c6World ("TEST") 7 (some ("")) (some ("1234567")) (some ("t"))
    (by decide)).2.2 (by decide) (by decide)

/-- Helper: the database step always records exactly one database lookup
keyed by the given instrument and run. -/
theorem get_run_data_from_database_trace (w : World) (i : String) (r : Int) :
    (get_run_data_from_database w i r).2 = [Event.dbLookup i r] := by
  unfold get_run_data_from_database
  rcases w.db i r with e | _ | rec <;> rfl

/-- Helper: every event of the catalogue lookup is a catalogue query. -/
theorem get_run_data_from_icat_trace (w : World) (i : String) (r : Int) (x : String) :
    ∀ ev ∈ (get_run_data_from_icat w i r x).2, ∃ f, ev = Event.icatQuery f := by
  intro ev
  by_cases hw : w.icatConnectOk = true
  · rcases hq1 : w.icatQuery (w.icatPrefix i ++ pyZfill (toString r) 5 ++ "." ++ x) with _ | d1
    · rcases hq2 : w.icatQuery (w.icatPrefix i ++ pyZfill (toString r) 8 ++ "." ++ x) with _ | d2
      · rcases hq3 : w.icatQuery (i ++ pyZfill (toString r) 5 ++ "." ++ x) with _ | d3
        · rcases hq4 : w.icatQuery (i ++ pyZfill (toString r) 8 ++ "." ++ x) with _ | d4
          · simp [get_run_data_from_icat, icat_datafile_query, login_icat, hw, hq1, hq2,
              hq3, hq4]
            intro hev
            rcases hev with rfl | rfl | rfl | rfl <;> exact ⟨_, rfl⟩
          · simp [get_run_data_from_icat, icat_datafile_query, login_icat, hw, hq1, hq2,
              hq3, hq4]
            intro hev
            rcases hev with rfl | rfl | rfl | rfl <;> exact ⟨_, rfl⟩
        · simp [get_run_data_from_icat, icat_datafile_query, login_icat, hw, hq1, hq2, hq3]
          intro hev
          rcases hev with rfl | rfl | rfl <;> exact ⟨_, rfl⟩
      · simp [get_run_data_from_icat, icat_datafile_query, login_icat, hw, hq1, hq2]
        intro hev
        rcases hev with rfl | rfl <;> exact ⟨_, rfl⟩
    · simp [get_run_data_from_icat, icat_datafile_query, login_icat, hw, hq1]
      intro hev
      exact ⟨_, hev⟩
  · simp [get_run_data_from_icat, icat_datafile_query, login_icat, hw]

/-- Helper: every event of run-data resolution is either the database lookup
keyed by the given instrument or a catalogue query. -/
theorem get_run_data_trace (w : World) (i : String) (r : Int) (x : String) :
    ∀ ev ∈ (get_run_data w i r x).2, lookupOrSendUsesInstr i ev := by
  have hdb := get_run_data_from_database_trace w i r
  have hicat := get_run_data_from_icat_trace w i r x
  intro ev
  rcases hres : (get_run_data_from_database w i r).1 with e | t
  · rcases e with m | m | m
    · rcases hic : (get_run_data_from_icat w i r x).1 with e2 | ⟨loc, rb, title⟩
      · simp only [get_run_data, hres, hic, hdb]
        intro hev
        rcases List.mem_append.mp hev with h | h
        · simp at h
          simp [h, lookupOrSendUsesInstr]
        · obtain ⟨f, rfl⟩ := hicat ev h
          simp [lookupOrSendUsesInstr]
      · rcases hov : overwrite_icat_calibration_rb_num w loc rb with e3 | rb2
        · simp only [get_run_data, hres, hic, hov, hdb]
          intro hev
          rcases List.mem_append.mp hev with h | h
          · simp at h
            simp [h, lookupOrSendUsesInstr]
          · obtain ⟨f, rfl⟩ := hicat ev h
            simp [lookupOrSendUsesInstr]
        · simp only [get_run_data, hres, hic, hov, hdb]
          intro hev
          rcases List.mem_append.mp hev with h | h
          · simp at h
            simp [h, lookupOrSendUsesInstr]
          · obtain ⟨f, rfl⟩ := hicat ev h
            simp [lookupOrSendUsesInstr]
    · simp only [get_run_data, hres, hdb]
      intro hev
      simp at hev
      simp [hev, lookupOrSendUsesInstr]
    · simp only [get_run_data, hres, hdb]
      intro hev
      simp at hev
      simp [hev, lookupOrSendUsesInstr]
  · simp only [get_run_data, hres, hdb]
    intro hev
    simp at hev
    simp [hev, lookupOrSendUsesInstr]

/-- Helper: every event of a per-run step respects the instrument predicate
— lookups are keyed by the step instrument and published messages carry
it. -/
theorem main_step_trace (w : World) (i : String) (run : Int) :
    ∀ ev ∈ (main_step w i run).2, lookupOrSendUsesInstr i ev := by
  have hg := get_run_data_trace w i run ("nxs")
  intro ev
  rcases hres : (get_run_data w i run ("nxs")).1 with e | ⟨loc, rb, title⟩
  · simp only [main_step, hres]
    exact fun hev => hg ev hev
  · rcases rb with _ | s
    · simp only [main_step, hres]
      exact fun hev => hg ev hev
    · by_cases hcond : pyTruthy loc = true
      · simp only [main_step, hres, submit_run]
        rw [if_pos ⟨hcond, by simp⟩]
        intro hev
        rcases List.mem_append.mp hev with h | h
        · rcases List.mem_append.mp h with h2 | h2
          · exact hg ev h2
          · simp at h2
            simp [h2, lookupOrSendUsesInstr]
        · simp at h
          simp [h, lookupOrSendUsesInstr]
      · simp only [main_step, hres]
        rw [if_neg (by simp [hcond])]
        intro hev
        rcases List.mem_append.mp hev with h | h
        · rcases List.mem_append.mp h with h2 | h2
          · exact hg ev h2
          · simp at h2
            simp [h2, lookupOrSendUsesInstr]
        · simp at h
          simp [h, lookupOrSendUsesInstr]

/-- Helper: the per-run trace property extends to the whole loop. -/
theorem main_loop_trace (w : World) (i : String) :
    ∀ runs acc ev, ev ∈ (main_loop w i runs acc).2 → lookupOrSendUsesInstr i ev := by
  intro runs
  induction runs with
  | nil =>
      intro acc ev hev
      simp [main_loop] at hev
  | cons run rest ih =>
      intro acc ev hev
      have hstep := main_step_trace w i run
      rcases hres : (main_step w i run).1 with e | o
      · simp only [main_loop, hres] at hev
        exact hstep ev hev
      · rcases o with _ | d
        · simp only [main_loop, hres] at hev
          rcases List.mem_append.mp hev with h | h
          · exact hstep ev h
          · exact ih acc ev h
        · simp only [main_loop, hres] at hev
          rcases List.mem_append.mp hev with h | h
          · exact hstep ev h
          · exact ih (acc ++ [d]) ev h

/-- Helper: every event of the single-run entry point uses the uppercased
instrument. -/
theorem main_trace (w : World) (i : String) (first : Int) (last : Option Int) :
    ∀ ev ∈ (main w i first last).2, lookupOrSendUsesInstr (pyUpper i) ev := by
  intro ev hev
  rcases hr : get_run_range first last with e | runs
  · simp only [main, hr] at hev
    simp at hev
  · by_cases hq : w.queueConnectOk = true
    · simp only [main, hr, login_queue, hq, if_true] at hev
      exact main_loop_trace w (pyUpper i) runs [] ev hev
    · rw [Bool.not_eq_true] at hq
      simp only [main, hr, login_queue, hq] at hev
      simp at hev

/-- Helper: every event of the batch resolution loop is a batch lookup keyed
by the loop instrument. -/
theorem batch_loop_trace (w : World) (i : String) :
    ∀ runs locs rbs ev, ev ∈ (batch_loop w i runs locs rbs).2 → lookupOrSendUsesInstr i ev := by
  intro runs
  induction runs with
  | nil =>
      intro locs rbs ev hev
      simp [batch_loop] at hev
  | cons run rest ih =>
      intro locs rbs ev hev
      rcases hres : w.getLocationAndRb i run with e | p
      · simp only [batch_loop, get_location_and_rb, hres] at hev
        simp at hev
        simp [hev, lookupOrSendUsesInstr]
      · rcases p with ⟨l, rb⟩
        simp only [batch_loop, get_location_and_rb, hres] at hev
        rcases List.mem_append.mp hev with h | h
        · simp at h
          simp [h, lookupOrSendUsesInstr]
        · exact ih (locs ++ [l]) (rbs ++ [rb]) ev h

/-- Helper: every lookup or publish event of the batch entry point uses the
uppercased instrument. -/
theorem batch_main_trace (w : World) (i : String) (runs : List Int) :
    ∀ ev ∈ (batch_main w i runs).2, lookupOrSendUsesInstr (pyUpper i) ev := by
  intro ev hev
  by_cases hq : w.queueConnectOk = true
  · rcases hr : (batch_loop w (pyUpper i) runs [] []).1 with e | p
    · simp only [batch_main, login_queue, hq, if_true, hr] at hev
      rcases List.mem_cons.mp hev with h | h
      · simp [h, lookupOrSendUsesInstr]
      · exact batch_loop_trace w (pyUpper i) runs [] [] ev h
    · simp only [batch_main, login_queue, hq, if_true, hr] at hev
      rcases List.mem_cons.mp hev with h | h
      · simp [h, lookupOrSendUsesInstr]
      · exact batch_loop_trace w (pyUpper i) runs [] [] ev h
  · rw [Bool.not_eq_true] at hq
    simp only [batch_main, login_queue, hq] at hev
    simp at hev
    simp [hev, lookupOrSendUsesInstr]

/-- Claim C10: the pipeline only uses the uppercased instrument name:
`main` is unchanged under uppercasing its instrument argument, and in
both entry points every database lookup, every batch resolution and
every published message in the trace carries the uppercased name. -/
theorem instrument_uppercase_pipeline :
    (∀ (w : World) (i : String) (first : Int) (last : Option Int),
        main w i first last = main w (pyUpper i) first last)
    ∧ (∀ (w : World) (i : String) (first : Int) (last : Option Int),
        ∀ ev ∈ (main w i first last).2, lookupOrSendUsesInstr (pyUpper i) ev)
    ∧ (∀ (w : World) (i : String) (runs : List Int),
        ∀ ev ∈ (batch_main w i runs).2, lookupOrSendUsesInstr (pyUpper i) ev) := by
  refine ⟨?_, ?_, ?_⟩
  · intro w i first last
    simp only [main, pyUpper_idem]
  · intro w i first last
    exact main_trace w i first last
  · intro w i runs
    exact batch_main_trace w i runs

/-- Claim C10 witness: the lookup event of a lowercase-instrument call
carries the uppercased name. -/
theorem instrument_uppercase_pipeline_witness :
    Event.dbLookup ("GEM") 5 ∈ (main dbHitWorld ("gem") 5 Option.none).2 ∧
    lookupOrSendUsesInstr (pyUpper ("gem")) (Event.dbLookup ("GEM") 5) :=
  ⟨by decide, instrument_uppercase_pipeline.2.1 dbHitWorld ("gem") 5 Option.none
    (Event.dbLookup ("GEM") 5) (by decide)⟩

end AutoreduceScripts
